import Mathlib

/-!
Shallow embedding of the healthfoody recommendation backend
(`app/services.py`, `app/main.py`, `app/db.py`, `app/models.py`,
`app/types.py`) and proofs about the claims on its specification.

Conventions of the embedding:
* Python `float` values that flow through the nutrient pipeline are
  modelled as `Rat` (no floating-point arithmetic is performed by the
  code on them: they are only extracted, stored and copied).
* Python `None` is `Option.none`; fallible code returns `Except`.
* JSON values parsed by `json.loads` are modelled by the inductive
  `Json`; Python dictionaries are association lists whose keys are
  unique (the shape `json.loads` produces).
* Timestamps are integers counted in days, which is the granularity of
  the only time arithmetic in the source
  (`timedelta(days=NUTRITION_CACHE_TTL_DAYS)`).
-/

deriving instance DecidableEq for Except

namespace Healthfoody

/-- JSON values, as produced by `json.loads` in `services.py`.
Objects are association lists with unique keys. -/
inductive Json where
  | jnull : Json
  | jbool : Bool → Json
  | jnum : Rat → Json
  | jstr : String → Json
  | jarr : List Json → Json
  | jobj : List (String × Json) → Json

/-- Python `dict` lookup (`d[k]` / `k in d`) on a JSON object's
association list. -/
def assoc : List (String × Json) → String → Option Json
  | [], _ => none
  | (k', v) :: rest, k => if k' = k then some v else assoc rest k

/-- The value of an `"amount"` entry of a USDA `foodNutrients` item, as
seen by `_extract_nutrient_value` (`services.py` lines 119-129).
`anone` covers both an absent key (`dict.get` returns `None`) and an
explicit JSON null; `aother` is any non-numeric, non-string object
(`float()` raises `TypeError` on it), tagged with its Python truthiness. -/
inductive Amount where
  | anone : Amount
  | anum : Rat → Amount
  | astr : String → Amount
  | aother : Bool → Amount
deriving DecidableEq, Repr

/-- Python truthiness of an amount: numbers are falsy exactly at zero,
strings exactly when empty. -/
def pyTruthy : Amount → Bool
  | .anone => false
  | .anum q => q ≠ 0
  | .astr s => s ≠ ""
  | .aother t => t

/-- Model of Python `float(s)` on a string: an optional sign followed by
a decimal literal (`"12"`, `"3.5"`, `".5"`, `"2."`).  Strings outside
this subset are treated as unparsable (`ValueError`, hence `none`);
the model is only ever used positively, through its successes. -/
def pyFloatString (s : String) : Option Rat :=
  let cs := s.toList
  let signAndRest : Bool × List Char :=
    match cs with
    | '-' :: r => (true, r)
    | '+' :: r => (false, r)
    | r => (false, r)
  let neg := signAndRest.1
  let rest := signAndRest.2
  let ip := rest.takeWhile (fun c => c ≠ '.')
  let rest2 := rest.drop ip.length
  let mkVal : Rat → Option Rat := fun v => some (if neg then -v else v)
  if ip.all Char.isDigit then
    let ipVal : Nat := ip.foldl (fun a c => a * 10 + (c.toNat - 48)) 0
    match rest2 with
    | [] => if ip.isEmpty then none else mkVal ipVal
    | '.' :: fp =>
      if fp.all Char.isDigit ∧ ¬(ip.isEmpty ∧ fp.isEmpty) then
        let fpVal : Nat := fp.foldl (fun a c => a * 10 + (c.toNat - 48)) 0
        mkVal ((ipVal : Rat) + (fpVal : Rat) / ((10 : Rat) ^ fp.length))
      else none
    | _ => none
  else none

/-- Model of Python `float(amount)` on an amount value; `none` is a
raised `ValueError`/`TypeError` (both caught in the source). -/
def pyFloat : Amount → Option Rat
  | .anone => none
  | .anum q => some q
  | .astr s => pyFloatString s
  | .aother _ => none

/-- Model of `_extract_nutrient_value` (`services.py` lines 119-129) applied to
the `"amount"` value of a nutrient item.  Source:
`amount = nutrient_data.get("amount"); if amount is None: return None;`
`try: return float(amount) if amount else None`
`except (ValueError, TypeError): return None`.
Note the truthiness test: a falsy amount (`0`, `0.0`, `""`) yields
`None` without calling `float`. -/
def extract_nutrient_value (amount : Amount) : Option Rat :=
  match amount with
  | .anone => none
  | amt => if pyTruthy amt then pyFloat amt else none

/-! ## Data model (`app/models.py`, `app/types.py`) -/

/-- Model of `NutrientData` (`app/types.py`): the six optional nutrient figures;
`none` is "unknown", not zero. -/
structure NutrientData where
  calories : Option Rat
  protein : Option Rat
  carbohydrates : Option Rat
  fat : Option Rat
  sugar : Option Rat
  sodium : Option Rat
deriving DecidableEq, Repr

/-- Model of `_create_default_nutrients` (`services.py` lines 107-116): all six
fields unknown. -/
def create_default_nutrients : NutrientData :=
  ⟨none, none, none, none, none, none⟩

/-- Model of `FoodItem` (`app/models.py`): a recommended or avoided food with its
nutrient profile. -/
structure FoodItem where
  name : String
  reason : String
  calories : Option Rat
  protein : Option Rat
  carbohydrates : Option Rat
  fat : Option Rat
  sugar : Option Rat
  sodium : Option Rat
deriving DecidableEq, Repr

/-- Model of `DietaryPrinciple` (`app/models.py`). -/
structure DietaryPrinciple where
  principle : String
  explanation : String
deriving DecidableEq, Repr

/-- Model of `FoodRecommendationResponse` (`app/models.py`). -/
structure FoodRecommendationResponse where
  recommended_foods : List FoodItem
  foods_to_avoid : List FoodItem
  dietary_principles : List DietaryPrinciple
deriving DecidableEq, Repr

/-- Model of `SearchType` (`app/models.py`). -/
inductive SearchType where
  | condition : SearchType
  | goal : SearchType
  | country : SearchType
deriving DecidableEq, Repr

/-- Model of `RecommendationRequest` (`app/models.py`); pydantic accepts any
string for `value`, including the empty one. -/
structure RecommendationRequest where
  search_type : SearchType
  value : String
  country : Option String
deriving DecidableEq, Repr

/-- Python exceptions that can escape the modelled fragments. -/
inductive PyErr where
  | attributeError : PyErr
  | typeError : PyErr
  | validationError : PyErr
deriving DecidableEq, Repr

/-! ## `get_gemini_recommendations` (`services.py` lines 37-104) -/

/-- The generative-service reply as the `try` block of
`get_gemini_recommendations` observes it, after `clean_json_response`
has stripped a possible markdown fence:
* `empty` — `response.text` is falsy (`None` or `""`, line 92);
* `invalid` — cleaned text on which `json.loads` raises
  `JSONDecodeError` (caught at line 102);
* `parsed j` — cleaned text that `json.loads` parses to `j`. -/
inductive RawReply where
  | empty : RawReply
  | invalid : String → RawReply
  | parsed : Json → RawReply

/-- The literal empty payload returned at lines 93-97 and 104. -/
def emptyGeminiPayload : Json :=
  .jobj [("recommended_foods", .jarr []),
         ("foods_to_avoid", .jarr []),
         ("dietary_principles", .jarr [])]

/-- Model of `get_gemini_recommendations` (`services.py` lines 37-104), given the
reply of one underlying service call.  An empty reply and a JSON-decode
failure both return the empty payload; a successful parse is returned
unchanged (the `cast` at line 101 does nothing at runtime). -/
def get_gemini_recommendations : RawReply → Json
  | .empty => emptyGeminiPayload
  | .invalid _ => emptyGeminiPayload
  | .parsed j => j

/-! ## `get_recommendations` (`services.py` lines 254-354) -/

/-- Python `d.get(k, default)` as used on `gemini_data`: raises
`AttributeError` when the receiver is not a dict (line 267 is the first
such access). -/
def Json.getD (j : Json) (k : String) (dflt : Json) : Except PyErr Json :=
  match j with
  | .jobj kvs => .ok ((assoc kvs k).getD dflt)
  | _ => .error .attributeError

/-- Python iteration (`for item in x`) over a JSON value: lists yield
their elements, strings their one-character substrings, dicts their
keys; numbers, booleans and null raise `TypeError`. -/
def pyIter : Json → Except PyErr (List Json)
  | .jarr xs => .ok xs
  | .jstr s => .ok (s.toList.map (fun c => .jstr (String.mk [c])))
  | .jobj kvs => .ok (kvs.map (fun kv => .jstr kv.1))
  | _ => .error .typeError

/-- pydantic validation of a `str`-annotated field (`FoodItem.name`,
`FoodItem.reason`, `DietaryPrinciple` fields): a non-string value
raises a `ValidationError`. -/
def asStr : Json → Except PyErr String
  | .jstr s => .ok s
  | _ => .error .validationError

/-- Collection of food names (`services.py` lines 266-273): every dict
item carrying a `"name"` key contributes its (arbitrary JSON) value. -/
def foodNamesOf (items : List Json) : List Json :=
  items.filterMap fun it =>
    match it with
    | .jobj kvs => assoc kvs "name"
    | _ => none

/-- Model of `nutrition_results[i] if i < len(nutrition_results) else None`
followed by the `isinstance(..., dict)` test (lines 286-295): an
exception entry (`none`) or an out-of-range index yields the default
profile. -/
def resultAt (results : List (Option NutrientData)) (i : Nat) : NutrientData :=
  match results[i]? with
  | some (some d) => d
  | _ => create_default_nutrients

/-- The item-assembly loops (`services.py` lines 283-307 and 314-341):
`i` is the `enumerate` index relative to `start`; items that are dicts
with both `"name"` and `"reason"` become `FoodItem`s, everything else is
skipped while the index still advances. -/
def buildItems : List Json → List (Option NutrientData) → Nat →
    Except PyErr (List FoodItem)
  | [], _, _ => .ok []
  | it :: rest, results, i =>
    match it with
    | .jobj kvs =>
      match assoc kvs "name", assoc kvs "reason" with
      | some nv, some rv => do
        let nd := resultAt results i
        let nm ← asStr nv
        let rz ← asStr rv
        let tail ← buildItems rest results (i + 1)
        .ok (⟨nm, rz, nd.calories, nd.protein, nd.carbohydrates,
              nd.fat, nd.sugar, nd.sodium⟩ :: tail)
      | _, _ => buildItems rest results (i + 1)
    | _ => buildItems rest results (i + 1)

/-- The dietary-principles comprehension (`services.py` lines 344-348). -/
def buildPrinciples : List Json → Except PyErr (List DietaryPrinciple)
  | [] => .ok []
  | it :: rest =>
    match it with
    | .jobj kvs =>
      match assoc kvs "principle", assoc kvs "explanation" with
      | some pv, some ev => do
        let p ← asStr pv
        let e ← asStr ev
        let tail ← buildPrinciples rest
        .ok (⟨p, e⟩ :: tail)
      | _, _ => buildPrinciples rest
    | _ => buildPrinciples rest

/-- Model of `get_recommendations` (`services.py` lines 254-354), given the
parsed generative payload `gemini_data` and the outcome of one nutrient
lookup per collected food name.  `fetch n = none` models a lookup task
that raised (collected as an exception object by
`asyncio.gather(..., return_exceptions=True)`); `fetch n = some d` a
task that returned the dict `d`.  Results are read back by position:
recommended item `i` reads slot `i`, avoided item `i` reads slot
`len(recommended_items) + i`. -/
def get_recommendations (gemini_data : Json)
    (fetch : Json → Option NutrientData) :
    Except PyErr FoodRecommendationResponse := do
  let recRaw ← gemini_data.getD "recommended_foods" (Json.jarr [])
  let recItems ← pyIter recRaw
  let avRaw ← gemini_data.getD "foods_to_avoid" (Json.jarr [])
  let avItems ← pyIter avRaw
  let food_names := foodNamesOf recItems ++ foodNamesOf avItems
  let nutrition_results := food_names.map fetch
  let recommended ← buildItems recItems nutrition_results 0
  let avoided ← buildItems avItems nutrition_results recItems.length
  let prRaw ← gemini_data.getD "dietary_principles" (Json.jarr [])
  let prItems ← pyIter prRaw
  let principles ← buildPrinciples prItems
  .ok ⟨recommended, avoided, principles⟩

/-! ## `get_usda_nutrition_data` (`services.py` lines 132-251) and the
persistent cache (`app/db.py`) -/

/-- Constant `NUTRITION_CACHE_TTL_DAYS` (`services.py` line 132). -/
def NUTRITION_CACHE_TTL_DAYS : Int := 30

/-- A `NutritionCache` row (`app/db.py` lines 14-23): `food_name` is the
primary key, timestamps are counted in days. -/
structure CacheRec where
  nutrients : NutrientData
  last_updated : Int
deriving DecidableEq, Repr

/-- The persistent `nutrition_cache` table: at most one row per
`food_name` (primary key), modelled as an association list. -/
abbrev CacheState := List (String × CacheRec)

/-- Row lookup by primary key
(`select(NutritionCache).where(NutritionCache.food_name == food_name)`
followed by `scalar_one_or_none()`). -/
def cacheLookup : CacheState → String → Option CacheRec
  | [], _ => none
  | (k, v) :: rest, n => if k = n then some v else cacheLookup rest n

/-- In-place update of the row whose key is `n` (the `existing` branch
of the cache write, lines 215-224, after a successful commit). -/
def cacheUpdate : CacheState → String → CacheRec → CacheState
  | [], _, _ => []
  | (k, v) :: rest, n, r =>
    if k = n then (n, r) :: rest else (k, v) :: cacheUpdate rest n r

/-- Line 21 of `services.py` is
`from datetime import datetime, timedelta`: the name `timezone`, used
at lines 150, 224 and 235, is never imported, so evaluating
`datetime.now(timezone.utc)` raises `NameError`. -/
def timezone_imported : Bool := false

/-- Evaluation of `datetime.now(timezone.utc)` (current day) under a
given resolution status of the name `timezone`; `Except.error` is the
`NameError`. -/
def evalNowUtc (tz : Bool) (now : Int) : Except Unit Int :=
  if tz then .ok now else .error ()

/-- One USDA food search (`services.py` lines 165-185) as observed by
the caller:
* `httpError` — `raise_for_status` or any other exception during the
  fetch (caught at lines 246-251);
* `noFoods` — 2xx reply whose `"foods"` entry is falsy (line 180);
* `foods fns` — 2xx reply; `fns` is `foods[0].get("foodNutrients", [])`,
  each item reduced to its `"nutrientName"` and `"amount"` entries. -/
inductive UsdaOutcome where
  | httpError : UsdaOutcome
  | noFoods : UsdaOutcome
  | foods : List (Option String × Amount) → UsdaOutcome

/-- Table `nutrient_map` (`services.py` lines 188-195). -/
def nutrient_map : List (String × String) :=
  [("Energy", "calories"),
   ("Protein", "protein"),
   ("Carbohydrate, by difference", "carbohydrates"),
   ("Total lipid (fat)", "fat"),
   ("Sugars, total including NLEA", "sugar"),
   ("Sodium, Na", "sodium")]

/-- String-keyed lookup in `nutrient_map`. -/
def assocS : List (String × String) → String → Option String
  | [], _ => none
  | (k', v) :: rest, k => if k' = k then some v else assocS rest k

/-- The dict assignment `nutrients_result[key] = ...` for the six keys
`nutrient_map` can produce. -/
def setNutrient (nd : NutrientData) (key : String) (v : Option Rat) :
    NutrientData :=
  if key = "calories" then { nd with calories := v }
  else if key = "protein" then { nd with protein := v }
  else if key = "carbohydrates" then { nd with carbohydrates := v }
  else if key = "fat" then { nd with fat := v }
  else if key = "sugar" then { nd with sugar := v }
  else if key = "sodium" then { nd with sodium := v }
  else nd

/-- The nutrient-translation loop (`services.py` lines 186-203). -/
def computeNutrients (fns : List (Option String × Amount)) : NutrientData :=
  fns.foldl
    (fun acc it =>
      match it.1 with
      | some nm =>
        match assocS nutrient_map nm with
        | some key => setNutrient acc key (extract_nutrient_value it.2)
        | none => acc
      | none => acc)
    create_default_nutrients

/-- What one call to `get_usda_nutrition_data` did, besides returning a
value: whether the cached-entry branch returned, whether the read-side
`except` at line 161 fired, whether the USDA HTTP fetch was attempted,
whether `db.commit()` (line 239) ran, and whether the write-side
`except` at line 240 fired. -/
structure UsdaTrace where
  servedFromCache : Bool
  cacheReadError : Bool
  usdaFetched : Bool
  committed : Bool
  cacheSaveError : Bool
deriving DecidableEq, Repr

/-- Core of `get_usda_nutrition_data` (`services.py` lines 135-251),
parameterized over the resolution status `tz` of the name `timezone`
(the source fixes it to `timezone_imported = false`; the `tz = true`
instance shows what the in-code `# Fix: Use timezone.utc and now()`
comments intend).  The function returns the nutrient payload, the
persistent cache state after the call, and the call's trace.
Control flow mirrored from the source:
* read phase (lines 139-162): on a selected row, evaluating the
  freshness bound raises `NameError` when `tz` is false, caught by the
  bare `except` at line 161, so the call falls through to the fetch;
* fetch (lines 173-185): `httpError` and `noFoods` return the default
  profile without touching the cache again;
* write phase (lines 206-242): both the update branch and the insert
  branch evaluate `datetime.now(timezone.utc)` before `db.commit()`;
  when that raises, `db.rollback()` (line 241) leaves the persistent
  state unchanged. -/
def get_usda_core (tz : Bool) (o : UsdaOutcome) (now : Int)
    (st : CacheState) (food_name : String) :
    NutrientData × CacheState × UsdaTrace :=
  let afterRead : Bool → NutrientData × CacheState × UsdaTrace :=
    fun readErr =>
      match o with
      | .httpError => (create_default_nutrients, st,
          ⟨false, readErr, true, false, false⟩)
      | .noFoods => (create_default_nutrients, st,
          ⟨false, readErr, true, false, false⟩)
      | .foods fns =>
        let res := computeNutrients fns
        match cacheLookup st food_name with
        | some _ =>
          match evalNowUtc tz now with
          | .ok t => (res, cacheUpdate st food_name ⟨res, t⟩,
              ⟨false, readErr, true, true, false⟩)
          | .error _ => (res, st, ⟨false, readErr, true, false, true⟩)
        | none =>
          match evalNowUtc tz now with
          | .ok t => (res, (food_name, ⟨res, t⟩) :: st,
              ⟨false, readErr, true, true, false⟩)
          | .error _ => (res, st, ⟨false, readErr, true, false, true⟩)
  match cacheLookup st food_name with
  | some cached =>
    match evalNowUtc tz now with
    | .ok t =>
      if cached.last_updated > t - NUTRITION_CACHE_TTL_DAYS then
        (cached.nutrients, st, ⟨true, false, false, false, false⟩)
      else afterRead false
    | .error _ => afterRead true
  | none => afterRead false

/-- Function `get_usda_nutrition_data` as written in the repository: the name
`timezone` does not resolve. -/
def get_usda_nutrition_data (o : UsdaOutcome) (now : Int)
    (st : CacheState) (food_name : String) :
    NutrientData × CacheState × UsdaTrace :=
  get_usda_core timezone_imported o now st food_name

/-! ## In-process memoization of the generative call
(`@alru_cache(maxsize=128)`, `services.py` line 37) -/

/-- The memoization key: the argument tuple
`(search_type, value, country)`. -/
abbrev GKey := SearchType × String × Option String

/-- The `alru_cache` table.  The claims touch a single key, far below
`maxsize=128`, so eviction never occurs and is not modelled. -/
abbrev Memo := List (GKey × Json)

/-- Lookup in the `alru_cache` table. -/
def memoLookup : Memo → GKey → Option Json
  | [], _ => none
  | (k', v) :: rest, k => if k' = k then some v else memoLookup rest k

/-- Function `get_gemini_recommendations` as decorated by `alru_cache`: on a hit
the wrapped coroutine does not run (zero service calls); on a miss it
runs once against `reply` and the result is stored.  The third
component counts the underlying generative-service calls made. -/
def get_gemini_recommendations_memo (reply : RawReply) (memo : Memo)
    (k : GKey) : Json × Memo × Nat :=
  match memoLookup memo k with
  | some j => (j, memo, 0)
  | none =>
    let j := get_gemini_recommendations reply
    (j, (k, j) :: memo, 1)

/-- One run of the recommendation pipeline
(`get_recommendations`, `services.py` lines 254-263, through the
memoized generative client): result, memo table after the run, and the
number of generative-service calls made. -/
def run_recommendations (reply : RawReply) (memo : Memo)
    (fetch : Json → Option NutrientData) (req : RecommendationRequest) :
    Except PyErr FoodRecommendationResponse × Memo × Nat :=
  let g := get_gemini_recommendations_memo reply memo
    (req.search_type, req.value, req.country)
  (get_recommendations g.1 fetch, g.2.1, g.2.2)

/-! ## The web endpoint (`app/main.py` lines 47-64) -/

/-- Counts of externally visible work done while serving one request. -/
structure Effects where
  geminiCalls : Nat
  nutritionCalls : Nat
  cacheReads : Nat
  cacheWrites : Nat
deriving DecidableEq, Repr

/-- No external call, no cache access. -/
def Effects.zero : Effects := ⟨0, 0, 0, 0⟩

/-- An HTTP error reply (`fastapi.HTTPException`). -/
structure HttpError where
  status : Nat
  detail : String
deriving DecidableEq, Repr

/-- Endpoint `get_food_recommendations` (`app/main.py` lines 47-64),
parameterized over the downstream pipeline (which reports its own
effects).  `if not request.value` (line 52) rejects the empty string
with HTTP 400 before the pipeline — and hence any external call or
cache access — is reached; an exception escaping the pipeline becomes
HTTP 500 (lines 60-64). -/
def get_food_recommendations
    (pipeline : RecommendationRequest →
      Except PyErr FoodRecommendationResponse × Effects)
    (req : RecommendationRequest) :
    Except HttpError FoodRecommendationResponse × Effects :=
  if req.value = "" then
    (.error ⟨400, "The 'value' field cannot be empty."⟩, Effects.zero)
  else
    match pipeline req with
    | (.ok r, eff) => (.ok r, eff)
    | (.error _, eff) => (.error ⟨500, "Internal Server Error"⟩, eff)

/-! ## Derived forms used to state the claims -/

/-- The profile a food item ends up with, as a function of its lookup's
outcome: the returned dict on success, the default (all-unknown) profile
when the task raised. -/
def profileOf : Option NutrientData → NutrientData
  | some d => d
  | none => create_default_nutrients

/-- A well-typed generative list entry: a name, and optionally a reason
(both strings).  `none` as second component is a dict carrying only
`"name"`. -/
abbrev NEntry := String × Option String

/-- The JSON dict of an `NEntry`. -/
def entryJson : NEntry → Json
  | (n, some r) => .jobj [("name", .jstr n), ("reason", .jstr r)]
  | (n, none) => .jobj [("name", .jstr n)]

/-- The JSON dict of a dietary principle. -/
def prinJson (p : String × String) : Json :=
  .jobj [("principle", .jstr p.1), ("explanation", .jstr p.2)]

/-- A generative payload whose three lists consist of well-typed
entries. -/
def mkPayload (rs av : List NEntry) (ps : List (String × String)) : Json :=
  .jobj [("recommended_foods", .jarr (rs.map entryJson)),
         ("foods_to_avoid", .jarr (av.map entryJson)),
         ("dietary_principles", .jarr (ps.map prinJson))]

/-- The `FoodItem` assembled for name `n` and reason `r` from the
outcome of the lookup issued for `n` itself. -/
def itemOf (fetch : Json → Option NutrientData) (n r : String) : FoodItem :=
  let nd := profileOf (fetch (.jstr n))
  ⟨n, r, nd.calories, nd.protein, nd.carbohydrates, nd.fat, nd.sugar,
   nd.sodium⟩

/-- The expected assembly of a list of well-typed entries: entries with
a reason become items fed by their own name's lookup, entries without a
reason are dropped. -/
def assembleOf (fetch : Json → Option NutrientData) (l : List NEntry) :
    List FoodItem :=
  l.filterMap fun e => e.2.map (itemOf fetch e.1)

/-- The `DietaryPrinciple` of a pair. -/
def prinOf (p : String × String) : DietaryPrinciple := ⟨p.1, p.2⟩

/-! ## Assembly lemmas -/

theorem foodNamesOf_entries (l : List NEntry) :
    foodNamesOf (l.map entryJson) = l.map (fun e => Json.jstr e.1) := by
  induction l with
  | nil => rfl
  | cons e t ih =>
    obtain ⟨n, r⟩ := e
    cases r <;> simp [foodNamesOf, entryJson, assoc] at ih ⊢ <;>
      simpa [foodNamesOf] using ih

theorem buildPrinciples_entries (ps : List (String × String)) :
    buildPrinciples (ps.map prinJson) = .ok (ps.map prinOf) := by
  induction ps with
  | nil => rfl
  | cons p t ih =>
    simp [buildPrinciples, prinJson, assoc, asStr, ih, prinOf, Bind.bind,
      Except.bind]

theorem buildItems_entries (fetch : Json → Option NutrientData) :
    ∀ (l : List NEntry) (results : List (Option NutrientData)) (start : Nat),
      (∀ i, i < l.length →
        results[start + i]? =
          (l[i]?).map (fun e => fetch (Json.jstr e.1))) →
      buildItems (l.map entryJson) results start = .ok (assembleOf fetch l) := by
  intro l
  induction l with
  | nil => intro results start _; rfl
  | cons e t ih =>
    intro results start h
    have h0 : results[start]? = some (fetch (Json.jstr e.1)) := by
      have := h 0 (by simp)
      simpa using this
    have htail : ∀ i, i < t.length →
        results[start + 1 + i]? =
          (t[i]?).map (fun e => fetch (Json.jstr e.1)) := by
      intro i hi
      have := h (i + 1) (by simp; omega)
      have harith : start + (i + 1) = start + 1 + i := by omega
      rw [harith] at this
      simpa using this
    have ihr := ih results (start + 1) htail
    obtain ⟨n, r⟩ := e
    have hres : resultAt results start = profileOf (fetch (Json.jstr n)) := by
      simp only at h0
      cases hf : fetch (Json.jstr n) <;>
        simp [resultAt, h0, hf, profileOf]
    cases r with
    | none =>
      simp [entryJson, buildItems, assoc, assembleOf] at ihr ⊢
      simpa [assembleOf] using ihr
    | some rz =>
      simp [entryJson, buildItems, assoc, asStr, hres, ihr, assembleOf,
        itemOf, Bind.bind, Except.bind]

/-- Full characterization of `get_recommendations` on a payload of
well-typed entries: nothing raises, entries without a reason are
dropped, and every assembled item is fed by the lookup issued for its
own name — the `enumerate` indices into `nutrition_results` line up
with the positions of the collected food names because every entry
carries a `"name"`. -/
theorem get_recommendations_mkPayload (rs av : List NEntry)
    (ps : List (String × String)) (fetch : Json → Option NutrientData) :
    get_recommendations (mkPayload rs av ps) fetch =
      .ok ⟨assembleOf fetch rs, assembleOf fetch av, ps.map prinOf⟩ := by
  have gname : ∀ (l : List NEntry), foodNamesOf (l.map entryJson) =
      l.map (fun e => Json.jstr e.1) := foodNamesOf_entries
  have hrec : buildItems (rs.map entryJson)
      ((foodNamesOf (rs.map entryJson) ++ foodNamesOf (av.map entryJson)).map fetch)
      0 = .ok (assembleOf fetch rs) := by
    apply buildItems_entries
    intro i hi
    rw [gname, gname, List.getElem?_map,
      List.getElem?_append_left (by simpa using hi), List.getElem?_map]
    simp [Option.map_map]
    rfl
  have hav : buildItems (av.map entryJson)
      ((foodNamesOf (rs.map entryJson) ++ foodNamesOf (av.map entryJson)).map fetch)
      (rs.map entryJson).length = .ok (assembleOf fetch av) := by
    apply buildItems_entries
    intro i hi
    rw [gname, gname, List.getElem?_map,
      List.getElem?_append_right (by simp), List.getElem?_map]
    simp [Option.map_map]
    rfl
  simp only [get_recommendations, mkPayload, Json.getD, assoc, pyIter,
    Bind.bind, Except.bind]
  simp only [String.reduceEq, reduceIte, Option.getD_some]
  rw [hrec, hav, buildPrinciples_entries]

/-! ## Claim C6 — numeric extraction -/

/-- C6, counterexample.  The claim states that any representable numeric
amount, including zero, is preserved by `_extract_nutrient_value`.  It
is false: `float(amount) if amount else None` tests Python truthiness,
and a native numeric amount `0` is falsy, so the extraction returns
`None` instead of `0`. -/
theorem c6_counterexample :
    extract_nutrient_value (Amount.anum 0) = none ∧
    extract_nutrient_value (Amount.anum 0) ≠ some 0 := by
  decide

/-- C6, amended.  Numeric extraction returns the numeric value when the
amount arrives as a nonzero native number or as a non-empty numeric
string (so the string `"0"` is preserved as `0`); a native zero amount
is falsy and yields unknown (`None`), as do null/absent, non-numeric
strings and non-numeric objects.  The extraction is a total function on
these inputs: every exception `float` can raise on them (`ValueError`,
`TypeError`) is caught. -/
theorem c6_amended :
    (∀ q : Rat, q ≠ 0 → extract_nutrient_value (Amount.anum q) = some q) ∧
    (∀ (s : String) (q : Rat), s ≠ "" → pyFloatString s = some q →
      extract_nutrient_value (Amount.astr s) = some q) ∧
    extract_nutrient_value (Amount.anum 0) = none ∧
    extract_nutrient_value Amount.anone = none ∧
    extract_nutrient_value (Amount.astr "abc") = none ∧
    (∀ t : Bool, extract_nutrient_value (Amount.aother t) = none) := by
  refine ⟨?_, ?_, by decide, rfl, by decide, ?_⟩
  · intro q hq
    simp [extract_nutrient_value, pyTruthy, pyFloat, hq]
  · intro s q hs hp
    simp [extract_nutrient_value, pyTruthy, pyFloat, hs, hp]
  · intro t
    cases t <;> simp [extract_nutrient_value, pyTruthy, pyFloat]

/-- C6, witness: a concrete nonzero native number and a concrete
numeric string both have their values preserved. -/
theorem c6_witness :
    extract_nutrient_value (Amount.anum 3) = some 3 ∧
    extract_nutrient_value (Amount.astr "7") = some 7 :=
  ⟨c6_amended.1 3 (by norm_num),
   c6_amended.2.1 "7" 7 (by decide) (by decide)⟩

/-! ## Claim C10 — the persistent cache is unreachable -/

/-- C10.  For every USDA outcome, time, persistent-cache state and food
name, `get_usda_nutrition_data` never serves from the cached-entry
branch, never commits a cache record (the persistent state is returned
unchanged), and always attempts a fresh USDA fetch whose parse result
(or the default profile) is what it returns: the unresolved name
`timezone` makes the freshness comparison and both timestamp
assignments raise `NameError`, caught as a cache read/save error. -/
theorem c10_cache_unreachable (o : UsdaOutcome) (now : Int)
    (st : CacheState) (food_name : String) :
    (get_usda_nutrition_data o now st food_name).2.2.servedFromCache = false ∧
    (get_usda_nutrition_data o now st food_name).2.2.committed = false ∧
    (get_usda_nutrition_data o now st food_name).2.1 = st ∧
    (get_usda_nutrition_data o now st food_name).2.2.usdaFetched = true ∧
    (get_usda_nutrition_data o now st food_name).1 =
      (match o with
       | .foods fns => computeNutrients fns
       | _ => create_default_nutrients) ∧
    (get_usda_nutrition_data o now st food_name).2.2.cacheReadError =
      (cacheLookup st food_name).isSome ∧
    (get_usda_nutrition_data o now st food_name).2.2.cacheSaveError =
      (match o with
       | .foods _ => true
       | _ => false) := by
  unfold get_usda_nutrition_data get_usda_core timezone_imported evalNowUtc
  cases h : cacheLookup st food_name <;> cases o <;> simp [h]

/-- What the write path was meant to do: with the name `timezone`
resolving (the `tz = true` instance of the core, matching the in-code
`# Fix: Use timezone.utc and now()` comments), a successful fetch
commits, and an immediate second call is served from the cache with the
same payload. -/
theorem get_usda_core_roundtrip_when_timezone_resolves
    (fns : List (Option String × Amount)) (now : Int) (name : String) :
    (get_usda_core true (.foods fns) now [] name).2.2.committed = true ∧
    (get_usda_core true .httpError now
      (get_usda_core true (.foods fns) now [] name).2.1 name).1 =
      computeNutrients fns ∧
    (get_usda_core true .httpError now
      (get_usda_core true (.foods fns) now [] name).2.1
      name).2.2.servedFromCache = true := by
  simp [get_usda_core, evalNowUtc, cacheLookup, NUTRITION_CACHE_TTL_DAYS]

/-! ## Claim C1 — cache round-trip (the code never completes the write) -/

/-- C1, evaluation at the failing input.  A call for `"apple"` whose
USDA fetch succeeds and parses `Energy = 52` returns that payload, but
the cache write is rolled back (`NameError` on
`datetime.now(timezone.utc)` before `db.commit()`), so the persistent
store still has no row; the immediately following call finds no fresh
entry and is not served from the cache — it re-fetches instead of
returning the cached value. -/
theorem c1_roundtrip_fails :
    (get_usda_nutrition_data (.foods [(some "Energy", Amount.anum 52)])
      100 [] "apple").1 =
      { create_default_nutrients with calories := some 52 } ∧
    (get_usda_nutrition_data (.foods [(some "Energy", Amount.anum 52)])
      100 [] "apple").2.2.committed = false ∧
    (get_usda_nutrition_data (.foods [(some "Energy", Amount.anum 52)])
      100 [] "apple").2.1 = [] ∧
    (get_usda_nutrition_data (.foods [(some "Energy", Amount.anum 52)])
      100
      (get_usda_nutrition_data (.foods [(some "Energy", Amount.anum 52)])
        100 [] "apple").2.1
      "apple").2.2.servedFromCache = false := by
  decide

/-! ## Claim C5 — idempotent upsert (the code never persists any row) -/

/-- C5, evaluation at the failing input.  Two sequential writes for
`"apple"` (payloads `Energy = 52` then `Energy = 60`) leave zero
records, not one record holding the second payload: both commits are
preempted by the `NameError` on the timestamp expression and rolled
back. -/
theorem c5_upsert_never_persists :
    (get_usda_nutrition_data (.foods [(some "Energy", Amount.anum 60)]) 101
      (get_usda_nutrition_data (.foods [(some "Energy", Amount.anum 52)])
        100 [] "apple").2.1
      "apple").2.1 = [] ∧
    cacheLookup
      (get_usda_nutrition_data (.foods [(some "Energy", Amount.anum 60)]) 101
        (get_usda_nutrition_data (.foods [(some "Energy", Amount.anum 52)])
          100 [] "apple").2.1
        "apple").2.1 "apple" = none := by
  decide

/-! ## Claim C7 — empty `value` rejected before any external work -/

/-- C7.  For every downstream pipeline and every request whose `value`
is empty, the endpoint replies HTTP 400 with the source's literal
detail string, and reports zero generative calls, zero nutrition calls
and zero cache reads or writes: the check at `main.py` line 52 fires
before the pipeline is invoked. -/
theorem c7_empty_value_rejected
    (pipeline : RecommendationRequest →
      Except PyErr FoodRecommendationResponse × Effects)
    (req : RecommendationRequest) (h : req.value = "") :
    get_food_recommendations pipeline req =
      (.error ⟨400, "The 'value' field cannot be empty."⟩, Effects.zero) := by
  simp [get_food_recommendations, h]

/-- C7, witness: a concrete empty-valued request against a pipeline
that would report external work is still rejected with zero effects. -/
theorem c7_witness :
    get_food_recommendations
      (fun _ => (.ok ⟨[], [], []⟩, ⟨1, 1, 1, 1⟩))
      ⟨SearchType.condition, "", none⟩ =
      (.error ⟨400, "The 'value' field cannot be empty."⟩, Effects.zero) :=
  c7_empty_value_rejected _ _ rfl

/-! ## Claim C9 — second identical request hits the in-process memo -/

/-- C9.  Starting from an empty `alru_cache` table, running the
pipeline twice for the same request (whatever the generative service
would have replied the second time, and with the nutrition environment
held fixed) makes zero generative-service calls on the second run and
returns a second response identical to the first: the memoized
coroutine result is reused. -/
theorem c9_second_call_memo_hit (reply1 reply2 : RawReply)
    (fetch : Json → Option NutrientData) (req : RecommendationRequest) :
    (run_recommendations reply2
      (run_recommendations reply1 [] fetch req).2.1 fetch req).2.2 = 0 ∧
    (run_recommendations reply2
      (run_recommendations reply1 [] fetch req).2.1 fetch req).1 =
      (run_recommendations reply1 [] fetch req).1 := by
  simp [run_recommendations, get_gemini_recommendations_memo, memoLookup]

/-! ## Claim C2 — malformed generative replies degrade to empty -/

/-- C2, amended.  For every generative reply that is empty/absent,
non-JSON text, or a valid JSON *object* carrying none of the three
required keys, the pipeline returns the empty-but-valid response and no
exception escapes.  (The amendment restricts "valid JSON" to objects:
see the counterexample for a valid non-object JSON reply.) -/
theorem c2_degrade_to_empty (reply : RawReply)
    (kvs : List (String × Json)) (fetch : Json → Option NutrientData)
    (h : reply = RawReply.empty ∨ (∃ t, reply = RawReply.invalid t) ∨
      (reply = RawReply.parsed (Json.jobj kvs) ∧
        assoc kvs "recommended_foods" = none ∧
        assoc kvs "foods_to_avoid" = none ∧
        assoc kvs "dietary_principles" = none)) :
    get_recommendations (get_gemini_recommendations reply) fetch =
      .ok ⟨[], [], []⟩ := by
  rcases h with h | ⟨t, h⟩ | ⟨h, h1, h2, h3⟩ <;> subst h
  · rfl
  · rfl
  · simp [get_recommendations, get_gemini_recommendations, Json.getD,
      h1, h2, h3, pyIter, buildItems, buildPrinciples, foodNamesOf,
      Bind.bind, Except.bind]

/-- C2, witness: a parsed JSON object with none of the required keys
yields the empty response without raising. -/
theorem c2_witness :
    get_recommendations (get_gemini_recommendations
      (RawReply.parsed (Json.jobj [("foo", Json.jnum 1)])))
      (fun _ => none) = .ok ⟨[], [], []⟩ :=
  c2_degrade_to_empty _ [("foo", Json.jnum 1)] _
    (Or.inr (Or.inr ⟨rfl, rfl, rfl, rfl⟩))

/-- C2, counterexample.  A reply that is valid JSON but not an object
(here the array `[]`) is "valid JSON missing the required keys", yet
the pipeline does not produce the empty payload: `gemini_data.get` on a
non-dict raises `AttributeError` inside `get_recommendations`, outside
every `try`, and the exception escapes to the caller. -/
theorem c2_counterexample :
    get_recommendations (get_gemini_recommendations
      (RawReply.parsed (Json.jarr []))) (fun _ => none) =
      .error PyErr.attributeError ∧
    get_recommendations (get_gemini_recommendations
      (RawReply.parsed (Json.jarr []))) (fun _ => none) ≠
      .ok ⟨[], [], []⟩ := by
  decide

/-! ## Claim C3 — isolation of a failing nutrient lookup -/

/-- On fully well-formed entry lists (every entry has a name and a
reason), `assembleOf` is a plain map: no entry is dropped. -/
theorem assembleOf_full (fetch : Json → Option NutrientData)
    (l : List (String × String)) :
    assembleOf fetch (l.map (fun p => (p.1, some p.2))) =
      l.map (fun p => itemOf fetch p.1 p.2) := by
  induction l with
  | nil => rfl
  | cons p t ih => simp [assembleOf] at ih ⊢; exact ih

/-- The nutrition environment used by C3's witness: the lookup for
`"Apple"` raises, every other lookup succeeds with a fixed profile. -/
def fetchFailApple : Json → Option NutrientData
  | Json.jstr "Apple" => none
  | _ => some ⟨some 160, some 2, some 9, some 15, none, some 7⟩

/-- C3.  For every batch of lookups spawned by a payload of well-formed
entries, if the lookup for food `x` raises while the environment is
otherwise arbitrary, the assembled response keeps every food item (both
lists map one-to-one over their entries), each item is fed by the
lookup for its own name, and the items named `x` carry the all-unknown
profile — the failure is isolated to them and aborts nothing. -/
theorem c3_failing_lookup_isolated (rs av : List (String × String))
    (ps : List (String × String)) (fetch : Json → Option NutrientData)
    (x : String) (hx : fetch (Json.jstr x) = none) :
    get_recommendations
        (mkPayload (rs.map (fun p => (p.1, some p.2)))
          (av.map (fun p => (p.1, some p.2))) ps) fetch =
      .ok ⟨rs.map (fun p => itemOf fetch p.1 p.2),
           av.map (fun p => itemOf fetch p.1 p.2),
           ps.map prinOf⟩ ∧
    (∀ r : String, itemOf fetch x r =
      ⟨x, r, none, none, none, none, none, none⟩) := by
  constructor
  · rw [get_recommendations_mkPayload, assembleOf_full, assembleOf_full]
  · intro r
    simp [itemOf, hx, profileOf, create_default_nutrients]

/-- C3, witness: with `"Apple"`'s lookup raising and `"Candy"`'s
succeeding, both foods are present, `"Candy"` carries its fetched
profile and `"Apple"` carries the all-unknown one. -/
theorem c3_witness :
    get_recommendations
        (mkPayload [("Apple", some "a"), ("Candy", some "c")] [] [])
        fetchFailApple =
      .ok ⟨[itemOf fetchFailApple "Apple" "a",
            itemOf fetchFailApple "Candy" "c"], [], []⟩ ∧
    itemOf fetchFailApple "Apple" "a" =
      ⟨"Apple", "a", none, none, none, none, none, none⟩ ∧
    itemOf fetchFailApple "Candy" "c" =
      ⟨"Candy", "c", some 160, some 2, some 9, some 15, none, some 7⟩ := by
  refine ⟨(c3_failing_lookup_isolated [("Apple", "a"), ("Candy", "c")] [] []
    fetchFailApple "Apple" (by decide)).1, by decide, by decide⟩

/-! ## Claim C4 — results re-associated to their originating food -/

/-- C4, counterexample input: the first recommended entry is malformed
(it has a reason but no name), so the `enumerate` indices used to read
`nutrition_results` run ahead of the positions at which the food names
were collected. -/
def c4Payload : Json :=
  Json.jobj
    [("recommended_foods", Json.jarr
      [Json.jobj [("reason", Json.jstr "r")],
       Json.jobj [("name", Json.jstr "Apple"), ("reason", Json.jstr "x")],
       Json.jobj [("name", Json.jstr "Banana"), ("reason", Json.jstr "y")]]),
     ("foods_to_avoid", Json.jarr []),
     ("dietary_principles", Json.jarr [])]

/-- The nutrition environment of C4's counterexample: `"Apple"`'s
lookup yields 52 calories, `"Banana"`'s yields 89. -/
def fetchAppleBanana : Json → Option NutrientData
  | Json.jstr "Apple" => some ⟨some 52, none, none, none, none, none⟩
  | Json.jstr "Banana" => some ⟨some 89, none, none, none, none, none⟩
  | _ => none

/-- C4, counterexample.  On `c4Payload` the assembled `"Apple"` item
carries 89 calories — the profile fetched for `"Banana"` — although the
lookup issued for `"Apple"` itself produced 52, and the `"Banana"` item
carries the all-unknown profile: with a malformed entry present,
nutrient results are attached to different foods. -/
theorem c4_counterexample :
    get_recommendations c4Payload fetchAppleBanana =
      .ok ⟨[⟨"Apple", "x", some 89, none, none, none, none, none⟩,
            ⟨"Banana", "y", none, none, none, none, none, none⟩],
           [], []⟩ ∧
    (profileOf (fetchAppleBanana (Json.jstr "Apple"))).calories = some 52 ∧
    some (89 : Rat) ≠ some (52 : Rat) := by
  decide

/-- C4, amended.  When every list element is a well-typed dict carrying
a `"name"` (reasons may be present or absent), each assembled
`FoodItem` carries the nutrient profile produced by the lookup issued
for that item's own name: the collected-name positions and the
`enumerate` indices coincide, so results are re-associated by index to
their originating food.  `itemOf fetch n r` is by construction the item
whose nutrient fields are `profileOf (fetch n)`, the outcome of `n`'s
own lookup. -/
theorem c4_amended (rs av : List NEntry) (ps : List (String × String))
    (fetch : Json → Option NutrientData) :
    get_recommendations (mkPayload rs av ps) fetch =
      .ok ⟨assembleOf fetch rs, assembleOf fetch av, ps.map prinOf⟩ ∧
    (∀ n r : String,
      (itemOf fetch n r).name = n ∧
      (itemOf fetch n r).calories = (profileOf (fetch (Json.jstr n))).calories ∧
      (itemOf fetch n r).protein = (profileOf (fetch (Json.jstr n))).protein ∧
      (itemOf fetch n r).carbohydrates =
        (profileOf (fetch (Json.jstr n))).carbohydrates ∧
      (itemOf fetch n r).fat = (profileOf (fetch (Json.jstr n))).fat ∧
      (itemOf fetch n r).sugar = (profileOf (fetch (Json.jstr n))).sugar ∧
      (itemOf fetch n r).sodium = (profileOf (fetch (Json.jstr n))).sodium) := by
  exact ⟨get_recommendations_mkPayload rs av ps fetch,
    fun n r => ⟨rfl, rfl, rfl, rfl, rfl, rfl, rfl⟩⟩

/-! ## Claim C8 — silent filtering of malformed entries -/

/-- A generative food entry that cannot make pydantic raise: whenever
it is a dict carrying both `"name"` and `"reason"`, those values are
strings.  (This is the declared type of the parsed payload,
`list[dict[str, str]]` in `app/types.py`; entries that are not dicts or
miss a key are unrestricted.) -/
def entryOk : Json → Bool
  | .jobj kvs =>
    match assoc kvs "name", assoc kvs "reason" with
    | some (Json.jstr _), some (Json.jstr _) => true
    | some _, some _ => false
    | _, _ => true
  | _ => true

/-- Same for a dietary-principle entry. -/
def prinEntryOk : Json → Bool
  | .jobj kvs =>
    match assoc kvs "principle", assoc kvs "explanation" with
    | some (Json.jstr _), some (Json.jstr _) => true
    | some _, some _ => false
    | _, _ => true
  | _ => true

/-- The name/reason pair of an entry that carries all required fields;
`none` for every entry missing one (the entries the source drops). -/
def extractNR : Json → Option (String × String)
  | .jobj kvs =>
    match assoc kvs "name", assoc kvs "reason" with
    | some (Json.jstr n), some (Json.jstr r) => some (n, r)
    | _, _ => none
  | _ => none

/-- The principle built from an entry carrying all required fields. -/
def extractPE : Json → Option DietaryPrinciple
  | .jobj kvs =>
    match assoc kvs "principle", assoc kvs "explanation" with
    | some (Json.jstr p), some (Json.jstr e) => some ⟨p, e⟩
    | _, _ => none
  | _ => none

theorem buildItems_filter (results : List (Option NutrientData)) :
    ∀ (items : List Json) (start : Nat), items.all entryOk = true →
      ∃ l, buildItems items results start = .ok l ∧
        l.map (fun it => (it.name, it.reason)) = items.filterMap extractNR := by
  intro items
  induction items with
  | nil => exact fun _ _ => ⟨[], rfl, rfl⟩
  | cons it rest ih =>
    intro start hall
    rw [List.all_cons, Bool.and_eq_true] at hall
    obtain ⟨l, hl, hmap⟩ := ih (start + 1) hall.2
    have h1 := hall.1
    cases it with
    | jobj kvs =>
      cases hn : assoc kvs "name" with
      | none =>
        cases hr : assoc kvs "reason" <;>
          exact ⟨l, by simp [buildItems, hn, hr, hl],
            by simp [extractNR, hn, hr, hmap]⟩
      | some nv =>
        cases hr : assoc kvs "reason" with
        | none =>
          exact ⟨l, by simp [buildItems, hn, hr, hl],
            by simp [extractNR, hn, hr, hmap]⟩
        | some rv =>
          cases nv <;> cases rv <;>
            simp_all [entryOk, hn, hr, buildItems, asStr, extractNR,
              Bind.bind, Except.bind]
    | jnull =>
      exact ⟨l, by simp [buildItems, hl], by simp [extractNR, hmap]⟩
    | jbool b =>
      exact ⟨l, by simp [buildItems, hl], by simp [extractNR, hmap]⟩
    | jnum q =>
      exact ⟨l, by simp [buildItems, hl], by simp [extractNR, hmap]⟩
    | jstr s =>
      exact ⟨l, by simp [buildItems, hl], by simp [extractNR, hmap]⟩
    | jarr xs =>
      exact ⟨l, by simp [buildItems, hl], by simp [extractNR, hmap]⟩

theorem buildPrinciples_filter :
    ∀ items : List Json, items.all prinEntryOk = true →
      buildPrinciples items = .ok (items.filterMap extractPE) := by
  intro items
  induction items with
  | nil => exact fun _ => rfl
  | cons it rest ih =>
    intro hall
    rw [List.all_cons, Bool.and_eq_true] at hall
    have htail := ih hall.2
    have h1 := hall.1
    cases it with
    | jobj kvs =>
      cases hp : assoc kvs "principle" with
      | none =>
        cases he : assoc kvs "explanation" <;>
          simp [buildPrinciples, hp, he, htail, extractPE]
      | some pv =>
        cases he : assoc kvs "explanation" with
        | none => simp [buildPrinciples, hp, he, htail, extractPE]
        | some ev =>
          cases pv <;> cases ev <;>
            simp_all [prinEntryOk, hp, he, buildPrinciples, asStr,
              extractPE, Bind.bind, Except.bind]
    | jnull => simp [buildPrinciples, htail, extractPE]
    | jbool b => simp [buildPrinciples, htail, extractPE]
    | jnum q => simp [buildPrinciples, htail, extractPE]
    | jstr s => simp [buildPrinciples, htail, extractPE]
    | jarr xs => simp [buildPrinciples, htail, extractPE]

/-- C8.  For every parsed payload whose lists are made of well-typed
entries (whenever both required fields of an element are present they
are strings — the declared payload type), assembly succeeds without
raising, every element missing a required field is silently dropped,
and the elements carrying all required fields appear verbatim, in their
original order, in the corresponding response list. -/
theorem c8_malformed_entries_dropped (recs avs prs : List Json)
    (fetch : Json → Option NutrientData)
    (h1 : recs.all entryOk = true) (h2 : avs.all entryOk = true)
    (h3 : prs.all prinEntryOk = true) :
    ∃ resp, get_recommendations
        (Json.jobj [("recommended_foods", Json.jarr recs),
                    ("foods_to_avoid", Json.jarr avs),
                    ("dietary_principles", Json.jarr prs)]) fetch =
        .ok resp ∧
      resp.recommended_foods.map (fun it => (it.name, it.reason)) =
        recs.filterMap extractNR ∧
      resp.foods_to_avoid.map (fun it => (it.name, it.reason)) =
        avs.filterMap extractNR ∧
      resp.dietary_principles = prs.filterMap extractPE := by
  obtain ⟨lr, hlr, hlrmap⟩ :=
    buildItems_filter ((foodNamesOf recs ++ foodNamesOf avs).map fetch)
      recs 0 h1
  obtain ⟨la, hla, hlamap⟩ :=
    buildItems_filter ((foodNamesOf recs ++ foodNamesOf avs).map fetch)
      avs recs.length h2
  refine ⟨⟨lr, la, prs.filterMap extractPE⟩, ?_, hlrmap, hlamap, rfl⟩
  simp only [get_recommendations, Json.getD, assoc, pyIter, Bind.bind,
    Except.bind, String.reduceEq, reduceIte, Option.getD_some]
  rw [hlr, hla, buildPrinciples_filter prs h3]

/-- C8, witness: a recommended entry missing `"reason"`, a non-dict
entry and a principle missing `"explanation"` are all dropped, while
the complete entry `("B", "r")` survives verbatim. -/
theorem c8_witness :
    ∃ resp, get_recommendations
        (Json.jobj [("recommended_foods", Json.jarr
            [Json.jobj [("name", Json.jstr "A")],
             Json.jobj [("name", Json.jstr "B"), ("reason", Json.jstr "r")],
             Json.jstr "junk"]),
          ("foods_to_avoid", Json.jarr []),
          ("dietary_principles", Json.jarr
            [Json.jobj [("principle", Json.jstr "P")]])])
        (fun _ => none) =
        .ok resp ∧
      resp.recommended_foods.map (fun it => (it.name, it.reason)) =
        [("B", "r")] ∧
      resp.foods_to_avoid.map (fun it => (it.name, it.reason)) = [] ∧
      resp.dietary_principles = [] :=
  c8_malformed_entries_dropped
    [Json.jobj [("name", Json.jstr "A")],
     Json.jobj [("name", Json.jstr "B"), ("reason", Json.jstr "r")],
     Json.jstr "junk"]
    [] [Json.jobj [("principle", Json.jstr "P")]]
    (fun _ => none) (by decide) (by decide) (by decide)

end Healthfoody
